import Mathlib

/-!
Shallow embedding of the kloudflarelb load-balancer controller
(`pkg/loadbalancer/controller.go`) and of the cloudflared configuration
writer (`pkg/cloudflared`), together with theorems settling the frozen
claims about the repository's specification.

The controller's reconciliation function `syncServices`, its error handler
`handleErr`, and the tracker map operations `addService` /
`getServiceIngress` / `deleteService` are translated directly from the Go
source.  External collaborators (the informer cache lookup and the
`UpdateStatus` API call) are modelled as an explicit environment record:
the cache lookup result and whether a status write succeeds.
-/

namespace Kloudflarelb

/-- Result of `cache.SplitMetaNamespaceKey` from k8s client-go: splitting a
key on the slash character.  One part means an empty namespace with the key
as the name, two parts mean namespace and name, anything else is an error
(`none`). -/
def splitOnSlash : List Char → List (List Char)
  | [] => [[]]
  | c :: rest =>
    let r := splitOnSlash rest
    if c = '/' then [] :: r
    else
      match r with
      | [] => [[c]]
      | g :: gs => (c :: g) :: gs

/-- Embedding of `cache.SplitMetaNamespaceKey`: `none` models a key-format
error, `some (namespace, name)` a successful split. -/
def splitMetaNamespaceKey (key : String) : Option (String × String) :=
  match splitOnSlash key.data with
  | [name] => some ("", String.mk name)
  | [ns, name] => some (String.mk ns, String.mk name)
  | _ => none

/-- Embedding of Go `net.JoinHostPort`: hosts containing a colon are
bracketed. -/
def joinHostPort (host port : String) : String :=
  if host.data.contains ':' then "[" ++ host ++ "]:" ++ port
  else host ++ ":" ++ port

/-- The `ingress` struct of the controller: public hostname and internal
`host:port` service address. -/
structure Ingress where
  hostname : String
  service : String
  deriving DecidableEq, Repr

/-- Zero value of the `ingress` struct, returned by a Go map lookup on a
missing key. -/
def emptyIngress : Ingress := ⟨"", ""⟩

/-- The controller's `serviceTracker` map, embedded as an association list
from keys to ingress records. -/
abbrev Tracker := List (String × Ingress)

/-- Map lookup in the tracker. -/
def lookupTracker : Tracker → String → Option Ingress
  | [], _ => none
  | (k, v) :: rest, key => if k = key then some v else lookupTracker rest key

/-- Embedding of `Controller.addService`: insert or update the record for a
key. -/
def addService : Tracker → String → Ingress → Tracker
  | [], key, ing => [(key, ing)]
  | (k, v) :: rest, key, ing =>
    if k = key then (k, ing) :: rest else (k, v) :: addService rest key ing

/-- Embedding of `Controller.deleteService`: remove the record for a key. -/
def deleteService : Tracker → String → Tracker
  | [], _ => []
  | (k, v) :: rest, key =>
    if k = key then deleteService rest key else (k, v) :: deleteService rest key

/-- Embedding of `Controller.getServiceIngress`: Go map indexing returns
the zero value for a missing key. -/
def getServiceIngress (t : Tracker) (key : String) : Ingress :=
  (lookupTracker t key).getD emptyIngress

/-- One element of `Status.LoadBalancer.Ingress` (`v1.LoadBalancerIngress`):
a hostname and/or an IP. -/
structure LBIngress where
  hostname : String
  ip : String
  deriving DecidableEq, Repr

/-- The slice `Status.LoadBalancer.Ingress` of a service. -/
structure ServiceStatus where
  ingress : List LBIngress
  deriving DecidableEq, Repr

/-- The fields of `v1.ServiceSpec` read by the controller: type, cluster IP
and the declared port numbers. -/
structure ServiceSpec where
  type : String
  clusterIP : String
  ports : List Int
  deriving DecidableEq, Repr

/-- The fields of a `v1.Service` read by the controller. -/
structure Service where
  name : String
  ns : String
  spec : ServiceSpec
  status : ServiceStatus
  deriving DecidableEq, Repr

/-- The constant `v1.ServiceTypeLoadBalancer`. -/
def serviceTypeLoadBalancer : String := "LoadBalancer"

/-- The `config.Config` record consumed by the controller (fields set from
the command-line flags in `cmd/main.go`). -/
structure Config where
  domain : String
  tunnelID : String
  credentialsFile : String
  deriving DecidableEq, Repr

/-- Result of the informer-cache lookup `serviceLister.Services(ns).Get`:
the service, a not-found error, or any other error. -/
inductive GetResult where
  | found (svc : Service)
  | notFound
  | otherError
  deriving DecidableEq, Repr

/-- Environment of one `syncServices` invocation: the cache lookup outcome
and whether an `UpdateStatus` call (at most one per invocation) succeeds. -/
structure SyncEnv where
  get : GetResult
  updateOk : Bool
  deriving DecidableEq, Repr

/-- Outcome of one `syncServices` invocation: `nil` return, non-`nil`
error, or a Go runtime panic (out-of-range slice index). -/
inductive SyncOutcome where
  | success
  | failure
  | panicked
  deriving DecidableEq, Repr

/-- Observable result of one `syncServices` invocation: the tracker after
the call, the list of load-balancer statuses passed to `UpdateStatus` (in
call order, whether or not the call succeeded), and the outcome. -/
structure SyncResult where
  tracker : Tracker
  writes : List (List LBIngress)
  outcome : SyncOutcome
  deriving DecidableEq, Repr

/-- Release branch of `syncServices` (service gone or no longer of
LoadBalancer type): a no-op when the tracker record is the zero value,
otherwise clear the status when the service still exists (propagating a
write failure) and delete the tracker entry. -/
def releaseService (tracker : Tracker) (key : String) (svcExists : Bool)
    (updateOk : Bool) : SyncResult :=
  let ing := getServiceIngress tracker key
  if ing.hostname = "" ∨ ing.service = "" then ⟨tracker, [], .success⟩
  else if svcExists then
    if updateOk then ⟨deleteService tracker key, [[]], .success⟩
    else ⟨tracker, [[]], .failure⟩
  else ⟨deleteService tracker key, [], .success⟩

/-- Embedding of `Controller.syncServices`.  The key is split; the service
is fetched from the cache; an ineligible service takes the release branch;
an eligible service with a non-empty status ingress list adopts the first
entry's hostname; otherwise the hostname `name ++ "-" ++ namespace` is
computed (the configured domain is tested for emptiness but the branch body
is empty in the source), written to the status, and recorded in the tracker
on write success.  Indexing `Spec.Ports[0]` with no declared ports is a
panic. -/
def syncServices (cfg : Config) (tracker : Tracker) (key : String)
    (env : SyncEnv) : SyncResult :=
  match splitMetaNamespaceKey key with
  | none => ⟨tracker, [], .failure⟩
  | some (_ns, _name) =>
    match env.get with
    | .otherError => ⟨tracker, [], .failure⟩
    | .notFound => releaseService tracker key false env.updateOk
    | .found svc =>
      if svc.spec.type ≠ serviceTypeLoadBalancer then
        releaseService tracker key true env.updateOk
      else
        match svc.status.ingress with
        | i :: _ =>
          match svc.spec.ports with
          | [] => ⟨tracker, [], .panicked⟩
          | p :: _ =>
            ⟨addService tracker key
              ⟨i.hostname, joinHostPort svc.spec.clusterIP (toString p)⟩,
              [], .success⟩
        | [] =>
          let lbHostname := svc.name ++ "-" ++ svc.ns
          let lbHostname := if 0 < cfg.domain.length then lbHostname else lbHostname
          let newStatus : List LBIngress := [⟨lbHostname, ""⟩]
          if env.updateOk then
            match svc.spec.ports with
            | [] => ⟨tracker, [newStatus], .panicked⟩
            | p :: _ =>
              ⟨addService tracker key
                ⟨lbHostname, joinHostPort svc.spec.clusterIP (toString p)⟩,
                [newStatus], .success⟩
          else ⟨tracker, [newStatus], .failure⟩

/-- The constant `maxRetries` of the controller. -/
def maxRetries : Nat := 12

/-- Observable effect of one `handleErr` invocation on the queue's per-key
state: the per-key attempt counter afterwards, whether the key was
re-enqueued with backoff, whether it was dropped, and whether a key-format
error was logged. -/
structure HandleResult where
  counter : Nat
  requeued : Bool
  dropped : Bool
  loggedKeyErr : Bool
  deriving DecidableEq, Repr

/-- Embedding of `Controller.handleErr` acting on the key's attempt
counter (`NumRequeues`).  A `nil` error forgets the key (counter reset to
zero).  Otherwise the key split is attempted only to format a log line —
a split failure is logged and handling continues; below `maxRetries` the
key is re-enqueued rate-limited (incrementing the counter), at
`maxRetries` it is dropped and forgotten. -/
def handleErr (key : String) (errPresent : Bool) (counter : Nat) : HandleResult :=
  if errPresent = false then ⟨0, false, false, false⟩
  else
    let keyErr := (splitMetaNamespaceKey key).isNone
    if counter < maxRetries then ⟨counter + 1, true, false, keyErr⟩
    else ⟨0, false, true, keyErr⟩

/-- Boolean version of "the key's resource currently qualifies for
exposure": the cache lookup found a service of LoadBalancer type. -/
def eligibleB (env : SyncEnv) : Bool :=
  match env.get with
  | .found svc => svc.spec.type = serviceTypeLoadBalancer
  | _ => false

/-- Looking up a key right after `addService` yields the inserted record. -/
theorem lookupTracker_addService_self (t : Tracker) (key : String) (ing : Ingress) :
    lookupTracker (addService t key ing) key = some ing := by
  induction t with
  | nil => simp [addService, lookupTracker]
  | cons hd rest ih =>
    by_cases h : hd.1 = key
    · simp [addService, lookupTracker, h]
    · simp [addService, lookupTracker, h, ih]

/-- Looking up a key right after `deleteService` yields nothing. -/
theorem lookupTracker_deleteService_self (t : Tracker) (key : String) :
    lookupTracker (deleteService t key) key = none := by
  induction t with
  | nil => simp [deleteService, lookupTracker]
  | cons hd rest ih =>
    by_cases h : hd.1 = key
    · simp [deleteService, h, ih]
    · simp [deleteService, lookupTracker, h, ih]

/-- C3: for every eligible (LoadBalancer-type) service whose status already
carries an assigned hostname, `syncServices` adopts that hostname into the
tracker paired with the cluster IP and first declared port, issues no
status write, and returns success. -/
theorem syncServices_adopts_existing_hostname (cfg : Config) (tracker : Tracker)
    (key : String) (env : SyncEnv) (svc : Service) (i : LBIngress)
    (irest : List LBIngress) (p : Int) (prest : List Int)
    (hk : (splitMetaNamespaceKey key).isSome)
    (hg : env.get = .found svc)
    (ht : svc.spec.type = serviceTypeLoadBalancer)
    (hi : svc.status.ingress = i :: irest)
    (_hh : i.hostname ≠ "")
    (hp : svc.spec.ports = p :: prest) :
    syncServices cfg tracker key env =
      ⟨addService tracker key
        ⟨i.hostname, joinHostPort svc.spec.clusterIP (toString p)⟩,
       [], .success⟩ := by
  obtain ⟨⟨ns0, name0⟩, hsplit⟩ := Option.isSome_iff_exists.mp hk
  simp [syncServices, hsplit, hg, ht, hi, hp]

/-- Closed instance of `syncServices_adopts_existing_hostname`. -/
theorem syncServices_adopts_existing_hostname_witness :
    syncServices ⟨"", "", ""⟩ [] "default/web"
        ⟨.found ⟨"web", "default", ⟨"LoadBalancer", "10.0.0.5", [80]⟩,
          ⟨[⟨"web-default", ""⟩]⟩⟩, true⟩ =
      ⟨addService [] "default/web"
        ⟨"web-default", joinHostPort "10.0.0.5" (toString (80 : Int))⟩,
       [], .success⟩ :=
  syncServices_adopts_existing_hostname ⟨"", "", ""⟩ [] "default/web"
    ⟨.found ⟨"web", "default", ⟨"LoadBalancer", "10.0.0.5", [80]⟩,
      ⟨[⟨"web-default", ""⟩]⟩⟩, true⟩
    ⟨"web", "default", ⟨"LoadBalancer", "10.0.0.5", [80]⟩,
      ⟨[⟨"web-default", ""⟩]⟩⟩
    ⟨"web-default", ""⟩ [] 80 []
    (by decide) rfl rfl rfl (by decide) rfl

/-- C5: on the assignment path (eligible service, no hostname in status)
the status write is attempted first; on write failure the error is
propagated and the tracker is left unchanged, and an entry is inserted
only on write success. -/
theorem syncServices_assignment_atomic (cfg : Config) (tracker : Tracker)
    (key : String) (env : SyncEnv) (svc : Service)
    (hk : (splitMetaNamespaceKey key).isSome)
    (hg : env.get = .found svc)
    (ht : svc.spec.type = serviceTypeLoadBalancer)
    (hi : svc.status.ingress = []) :
    (syncServices cfg tracker key env).writes = [[⟨svc.name ++ "-" ++ svc.ns, ""⟩]]
    ∧ (env.updateOk = false →
        syncServices cfg tracker key env =
          ⟨tracker, [[⟨svc.name ++ "-" ++ svc.ns, ""⟩]], .failure⟩)
    ∧ (env.updateOk = true → ∀ p prest, svc.spec.ports = p :: prest →
        syncServices cfg tracker key env =
          ⟨addService tracker key
            ⟨svc.name ++ "-" ++ svc.ns, joinHostPort svc.spec.clusterIP (toString p)⟩,
           [[⟨svc.name ++ "-" ++ svc.ns, ""⟩]], .success⟩) := by
  obtain ⟨⟨ns0, name0⟩, hsplit⟩ := Option.isSome_iff_exists.mp hk
  refine ⟨?_, ?_, ?_⟩
  · cases hu : env.updateOk with
    | false => simp [syncServices, hsplit, hg, ht, hi, hu]
    | true =>
      cases hp : svc.spec.ports with
      | nil => simp [syncServices, hsplit, hg, ht, hi, hu, hp]
      | cons p prest => simp [syncServices, hsplit, hg, ht, hi, hu, hp]
  · intro hu
    simp [syncServices, hsplit, hg, ht, hi, hu]
  · intro hu p prest hp
    simp [syncServices, hsplit, hg, ht, hi, hu, hp]

/-- Closed instance of `syncServices_assignment_atomic`. -/
theorem syncServices_assignment_atomic_witness :
    (syncServices ⟨"", "", ""⟩ [] "default/web"
        ⟨.found ⟨"web", "default", ⟨"LoadBalancer", "10.0.0.5", [80]⟩, ⟨[]⟩⟩, false⟩).writes
      = [[⟨"web" ++ "-" ++ "default", ""⟩]]
    ∧ (false = false →
        syncServices ⟨"", "", ""⟩ [] "default/web"
            ⟨.found ⟨"web", "default", ⟨"LoadBalancer", "10.0.0.5", [80]⟩, ⟨[]⟩⟩, false⟩ =
          ⟨[], [[⟨"web" ++ "-" ++ "default", ""⟩]], .failure⟩)
    ∧ (false = true → ∀ p prest, ([80] : List Int) = p :: prest →
        syncServices ⟨"", "", ""⟩ [] "default/web"
            ⟨.found ⟨"web", "default", ⟨"LoadBalancer", "10.0.0.5", [80]⟩, ⟨[]⟩⟩, false⟩ =
          ⟨addService [] "default/web"
            ⟨"web" ++ "-" ++ "default", joinHostPort "10.0.0.5" (toString p)⟩,
           [[⟨"web" ++ "-" ++ "default", ""⟩]], .success⟩) :=
  syncServices_assignment_atomic ⟨"", "", ""⟩ [] "default/web"
    ⟨.found ⟨"web", "default", ⟨"LoadBalancer", "10.0.0.5", [80]⟩, ⟨[]⟩⟩, false⟩
    ⟨"web", "default", ⟨"LoadBalancer", "10.0.0.5", [80]⟩, ⟨[]⟩⟩
    (by decide) rfl rfl rfl

/-- The configuration record (the domain suffix in particular) never
influences the result of `syncServices`: the branch testing the domain's
length has an empty body in the source. -/
theorem syncServices_config_indep (cfg₁ cfg₂ : Config) (tracker : Tracker)
    (key : String) (env : SyncEnv) :
    syncServices cfg₁ tracker key env = syncServices cfg₂ tracker key env := by
  unfold syncServices
  cases hsplit : splitMetaNamespaceKey key with
  | none => rfl
  | some nn =>
    obtain ⟨ns0, name0⟩ := nn
    cases hg : env.get with
    | otherError => rfl
    | notFound => rfl
    | found svc =>
      by_cases ht : svc.spec.type = serviceTypeLoadBalancer
      · simp only [ht, ne_eq, not_true_eq_false, if_neg, ite_false, if_false]
        cases svc.status.ingress with
        | cons i irest => rfl
        | nil => simp [ite_self]
      · simp [ht]

/-- C6: on the assignment path the written hostname is exactly
`name ++ "-" ++ namespace`, the tracker entry on success carries that
hostname, and the configured domain suffix never changes the result. -/
theorem syncServices_hostname_deterministic (cfg : Config) (tracker : Tracker)
    (key : String) (env : SyncEnv) (svc : Service)
    (hk : (splitMetaNamespaceKey key).isSome)
    (hg : env.get = .found svc)
    (ht : svc.spec.type = serviceTypeLoadBalancer)
    (hi : svc.status.ingress = []) :
    (syncServices cfg tracker key env).writes = [[⟨svc.name ++ "-" ++ svc.ns, ""⟩]]
    ∧ (env.updateOk = true → ∀ p prest, svc.spec.ports = p :: prest →
        lookupTracker (syncServices cfg tracker key env).tracker key =
          some ⟨svc.name ++ "-" ++ svc.ns,
            joinHostPort svc.spec.clusterIP (toString p)⟩)
    ∧ ∀ cfg₂, syncServices cfg₂ tracker key env = syncServices cfg tracker key env := by
  obtain ⟨hw, hfail, hsucc⟩ :=
    syncServices_assignment_atomic cfg tracker key env svc hk hg ht hi
  refine ⟨hw, ?_, fun cfg₂ => syncServices_config_indep cfg₂ cfg tracker key env⟩
  intro hu p prest hp
  rw [hsucc hu p prest hp]
  exact lookupTracker_addService_self tracker key _

/-- Closed instance of `syncServices_hostname_deterministic`. -/
theorem syncServices_hostname_deterministic_witness :
    (syncServices ⟨"cluster.example", "", ""⟩ [] "default/web"
        ⟨.found ⟨"web", "default", ⟨"LoadBalancer", "10.0.0.5", [80]⟩, ⟨[]⟩⟩, true⟩).writes
      = [[⟨"web" ++ "-" ++ "default", ""⟩]]
    ∧ (true = true → ∀ p prest, ([80] : List Int) = p :: prest →
        lookupTracker (syncServices ⟨"cluster.example", "", ""⟩ [] "default/web"
            ⟨.found ⟨"web", "default", ⟨"LoadBalancer", "10.0.0.5", [80]⟩, ⟨[]⟩⟩, true⟩).tracker
            "default/web" =
          some ⟨"web" ++ "-" ++ "default", joinHostPort "10.0.0.5" (toString p)⟩)
    ∧ ∀ cfg₂, syncServices cfg₂ [] "default/web"
          ⟨.found ⟨"web", "default", ⟨"LoadBalancer", "10.0.0.5", [80]⟩, ⟨[]⟩⟩, true⟩ =
        syncServices ⟨"cluster.example", "", ""⟩ [] "default/web"
          ⟨.found ⟨"web", "default", ⟨"LoadBalancer", "10.0.0.5", [80]⟩, ⟨[]⟩⟩, true⟩ :=
  syncServices_hostname_deterministic ⟨"cluster.example", "", ""⟩ [] "default/web"
    ⟨.found ⟨"web", "default", ⟨"LoadBalancer", "10.0.0.5", [80]⟩, ⟨[]⟩⟩, true⟩
    ⟨"web", "default", ⟨"LoadBalancer", "10.0.0.5", [80]⟩, ⟨[]⟩⟩
    (by decide) rfl rfl rfl

/-- C10: an eligible (LoadBalancer-type) service with an empty declared
port list makes `syncServices` panic (out-of-range index on `Ports[0]`)
rather than return an error, on the adoption path directly and on the
assignment path once the status write succeeds. -/
theorem syncServices_zero_ports_panics (cfg : Config) (tracker : Tracker)
    (key : String) (env : SyncEnv) (svc : Service)
    (hk : (splitMetaNamespaceKey key).isSome)
    (hg : env.get = .found svc)
    (ht : svc.spec.type = serviceTypeLoadBalancer)
    (hp : svc.spec.ports = [])
    (hu : env.updateOk = true) :
    (syncServices cfg tracker key env).outcome = .panicked := by
  obtain ⟨⟨ns0, name0⟩, hsplit⟩ := Option.isSome_iff_exists.mp hk
  cases hi : svc.status.ingress with
  | cons i irest => simp [syncServices, hsplit, hg, ht, hi, hp]
  | nil => simp [syncServices, hsplit, hg, ht, hi, hp, hu]

/-- Closed instance of `syncServices_zero_ports_panics`. -/
theorem syncServices_zero_ports_panics_witness :
    (syncServices ⟨"", "", ""⟩ [] "default/web"
        ⟨.found ⟨"web", "default", ⟨"LoadBalancer", "10.0.0.5", []⟩, ⟨[]⟩⟩, true⟩).outcome
      = .panicked :=
  syncServices_zero_ports_panics ⟨"", "", ""⟩ [] "default/web"
    ⟨.found ⟨"web", "default", ⟨"LoadBalancer", "10.0.0.5", []⟩, ⟨[]⟩⟩, true⟩
    ⟨"web", "default", ⟨"LoadBalancer", "10.0.0.5", []⟩, ⟨[]⟩⟩
    (by decide) rfl rfl rfl rfl

/-- C7: running `syncServices` on a fresh eligible service and then again
on the snapshot carrying the status written by the first run succeeds both
times, leaves the same tracker entry after the second run as after the
first, and performs no status write on the second run (one on the first). -/
theorem syncServices_idempotent (cfg : Config) (tracker : Tracker)
    (key : String) (env : SyncEnv) (svc : Service) (p : Int) (prest : List Int)
    (hk : (splitMetaNamespaceKey key).isSome)
    (hg : env.get = .found svc)
    (hu : env.updateOk = true)
    (ht : svc.spec.type = serviceTypeLoadBalancer)
    (hi : svc.status.ingress = [])
    (hp : svc.spec.ports = p :: prest) :
    (syncServices cfg tracker key env).outcome = .success
    ∧ (syncServices cfg tracker key env).writes.length = 1
    ∧ (syncServices cfg (syncServices cfg tracker key env).tracker key
        ⟨.found { svc with status := ⟨[⟨svc.name ++ "-" ++ svc.ns, ""⟩]⟩ }, env.updateOk⟩).outcome
        = .success
    ∧ (syncServices cfg (syncServices cfg tracker key env).tracker key
        ⟨.found { svc with status := ⟨[⟨svc.name ++ "-" ++ svc.ns, ""⟩]⟩ }, env.updateOk⟩).writes
        = []
    ∧ lookupTracker (syncServices cfg (syncServices cfg tracker key env).tracker key
        ⟨.found { svc with status := ⟨[⟨svc.name ++ "-" ++ svc.ns, ""⟩]⟩ }, env.updateOk⟩).tracker
        key
      = lookupTracker (syncServices cfg tracker key env).tracker key := by
  obtain ⟨hw, hfail, hsucc⟩ :=
    syncServices_assignment_atomic cfg tracker key env svc hk hg ht hi
  have h1 : syncServices cfg tracker key env =
      ⟨addService tracker key
        ⟨svc.name ++ "-" ++ svc.ns, joinHostPort svc.spec.clusterIP (toString p)⟩,
       [[⟨svc.name ++ "-" ++ svc.ns, ""⟩]], .success⟩ := hsucc hu p prest hp
  have h2 : syncServices cfg (syncServices cfg tracker key env).tracker key
      ⟨.found { svc with status := ⟨[⟨svc.name ++ "-" ++ svc.ns, ""⟩]⟩ }, env.updateOk⟩ =
      ⟨addService (syncServices cfg tracker key env).tracker key
        ⟨svc.name ++ "-" ++ svc.ns, joinHostPort svc.spec.clusterIP (toString p)⟩,
       [], .success⟩ := by
    refine syncServices_adopts_existing_hostname cfg _ key _
      { svc with status := ⟨[⟨svc.name ++ "-" ++ svc.ns, ""⟩]⟩ }
      ⟨svc.name ++ "-" ++ svc.ns, ""⟩ [] p prest hk rfl ht rfl ?_ hp
    intro habs
    have hd := congrArg String.data habs
    simp at hd
  rw [h2, h1]
  refine ⟨rfl, rfl, rfl, rfl, ?_⟩
  rw [lookupTracker_addService_self, lookupTracker_addService_self]

/-- Closed instance of `syncServices_idempotent`. -/
theorem syncServices_idempotent_witness :
    (syncServices ⟨"", "", ""⟩ [] "default/web"
        ⟨.found ⟨"web", "default", ⟨"LoadBalancer", "10.0.0.5", [80]⟩, ⟨[]⟩⟩, true⟩).outcome
      = .success
    ∧ (syncServices ⟨"", "", ""⟩ [] "default/web"
        ⟨.found ⟨"web", "default", ⟨"LoadBalancer", "10.0.0.5", [80]⟩, ⟨[]⟩⟩, true⟩).writes.length
      = 1
    ∧ (syncServices ⟨"", "", ""⟩
        (syncServices ⟨"", "", ""⟩ [] "default/web"
          ⟨.found ⟨"web", "default", ⟨"LoadBalancer", "10.0.0.5", [80]⟩, ⟨[]⟩⟩, true⟩).tracker
        "default/web"
        ⟨.found { name := "web", ns := "default",
                  spec := ⟨"LoadBalancer", "10.0.0.5", [80]⟩,
                  status := ⟨[⟨"web" ++ "-" ++ "default", ""⟩]⟩ }, true⟩).outcome
      = .success
    ∧ (syncServices ⟨"", "", ""⟩
        (syncServices ⟨"", "", ""⟩ [] "default/web"
          ⟨.found ⟨"web", "default", ⟨"LoadBalancer", "10.0.0.5", [80]⟩, ⟨[]⟩⟩, true⟩).tracker
        "default/web"
        ⟨.found { name := "web", ns := "default",
                  spec := ⟨"LoadBalancer", "10.0.0.5", [80]⟩,
                  status := ⟨[⟨"web" ++ "-" ++ "default", ""⟩]⟩ }, true⟩).writes
      = []
    ∧ lookupTracker (syncServices ⟨"", "", ""⟩
        (syncServices ⟨"", "", ""⟩ [] "default/web"
          ⟨.found ⟨"web", "default", ⟨"LoadBalancer", "10.0.0.5", [80]⟩, ⟨[]⟩⟩, true⟩).tracker
        "default/web"
        ⟨.found { name := "web", ns := "default",
                  spec := ⟨"LoadBalancer", "10.0.0.5", [80]⟩,
                  status := ⟨[⟨"web" ++ "-" ++ "default", ""⟩]⟩ }, true⟩).tracker
        "default/web"
      = lookupTracker (syncServices ⟨"", "", ""⟩ [] "default/web"
          ⟨.found ⟨"web", "default", ⟨"LoadBalancer", "10.0.0.5", [80]⟩, ⟨[]⟩⟩, true⟩).tracker
          "default/web" :=
  syncServices_idempotent ⟨"", "", ""⟩ [] "default/web"
    ⟨.found ⟨"web", "default", ⟨"LoadBalancer", "10.0.0.5", [80]⟩, ⟨[]⟩⟩, true⟩
    ⟨"web", "default", ⟨"LoadBalancer", "10.0.0.5", [80]⟩, ⟨[]⟩⟩ 80 []
    (by decide) rfl rfl rfl rfl rfl

/-- C2: `handleErr` resets the key's attempt counter on a nil error, below
`maxRetries` (12) it re-enqueues a failing key rate-limited and increments
the counter, and at `maxRetries` it drops the key and forgets its backoff
state (counter reset to zero, no re-enqueue). -/
theorem handleErr_retry_policy (key : String) (c : Nat) :
    handleErr key false c = ⟨0, false, false, false⟩
    ∧ (c < maxRetries →
        handleErr key true c = ⟨c + 1, true, false, (splitMetaNamespaceKey key).isNone⟩)
    ∧ (maxRetries ≤ c →
        handleErr key true c = ⟨0, false, true, (splitMetaNamespaceKey key).isNone⟩) := by
  refine ⟨by simp [handleErr], fun h => by simp [handleErr, h], fun h => ?_⟩
  simp [handleErr, Nat.not_lt.mpr h]

/-- Closed instance of `handleErr_retry_policy`. -/
theorem handleErr_retry_policy_witness :
    handleErr "default/web" false 12 = ⟨0, false, false, false⟩
    ∧ (12 < maxRetries →
        handleErr "default/web" true 12 =
          ⟨12 + 1, true, false, (splitMetaNamespaceKey "default/web").isNone⟩)
    ∧ (maxRetries ≤ 12 →
        handleErr "default/web" true 12 =
          ⟨0, false, true, (splitMetaNamespaceKey "default/web").isNone⟩) :=
  handleErr_retry_policy "default/web" 12

/-- C8 (amended): a malformed key makes `syncServices` fail without
touching the tracker or writing status, and `handleErr` logs the
key-format error but still retries the key like any other failure:
re-enqueued rate-limited while the counter is below `maxRetries`, dropped
(and not re-enqueued) once the counter reaches `maxRetries`. -/
theorem malformed_key_retried (cfg : Config) (tracker : Tracker) (key : String)
    (env : SyncEnv) (c : Nat)
    (hk : splitMetaNamespaceKey key = none) :
    syncServices cfg tracker key env = ⟨tracker, [], .failure⟩
    ∧ (handleErr key true c).loggedKeyErr = true
    ∧ (c < maxRetries → (handleErr key true c).requeued = true)
    ∧ (maxRetries ≤ c →
        (handleErr key true c).dropped = true ∧ (handleErr key true c).requeued = false) := by
  refine ⟨by simp [syncServices, hk], ?_, ?_, ?_⟩
  · by_cases h : c < maxRetries <;> simp [handleErr, h, hk]
  · intro h; simp [handleErr, h]
  · intro h; simp [handleErr, Nat.not_lt.mpr h]

/-- Closed instance of `malformed_key_retried`. -/
theorem malformed_key_retried_witness :
    syncServices ⟨"", "", ""⟩ [] "a/b/c" ⟨.notFound, true⟩ = ⟨[], [], .failure⟩
    ∧ (handleErr "a/b/c" true 0).loggedKeyErr = true
    ∧ (0 < maxRetries → (handleErr "a/b/c" true 0).requeued = true)
    ∧ (maxRetries ≤ 0 →
        (handleErr "a/b/c" true 0).dropped = true
        ∧ (handleErr "a/b/c" true 0).requeued = false) :=
  malformed_key_retried ⟨"", "", ""⟩ [] "a/b/c" ⟨.notFound, true⟩ 0 (by decide)

/-- C8 is false as stated: the key "a/b/c" fails to split, the sync
returns an error, and `handleErr` nevertheless re-enqueues the key (the
split failure inside `handleErr` only affects logging). -/
theorem malformed_key_counterexample :
    (splitMetaNamespaceKey "a/b/c").isNone = true
    ∧ (syncServices ⟨"", "", ""⟩ [] "a/b/c" ⟨.notFound, true⟩).outcome = .failure
    ∧ (handleErr "a/b/c" true 0).requeued = true := by
  decide

/-- C1 (amended): provided every tracker record stored at the key has a
nonempty hostname and service address (which the assignment path and the
adoption of a nonempty hostname guarantee), a successful `syncServices`
invocation leaves an entry for the key exactly when the service exists and
is of LoadBalancer type. -/
theorem syncServices_tracker_membership (cfg : Config) (tracker : Tracker)
    (key : String) (env : SyncEnv)
    (hwf : ∀ e, lookupTracker tracker key = some e → e.hostname ≠ "" ∧ e.service ≠ "")
    (hs : (syncServices cfg tracker key env).outcome = .success) :
    (lookupTracker (syncServices cfg tracker key env).tracker key).isSome = eligibleB env := by
  cases hsplit : splitMetaNamespaceKey key with
  | none => simp [syncServices, hsplit] at hs
  | some nn =>
    obtain ⟨ns0, name0⟩ := nn
    cases hg : env.get with
    | otherError => simp [syncServices, hsplit, hg] at hs
    | notFound =>
      cases hl : lookupTracker tracker key with
      | none =>
        simp [syncServices, hsplit, hg, releaseService, getServiceIngress, hl,
          emptyIngress, eligibleB]
      | some e =>
        obtain ⟨he1, he2⟩ := hwf e hl
        simp [syncServices, hsplit, hg, releaseService, getServiceIngress, hl, he1, he2,
          eligibleB, lookupTracker_deleteService_self]
    | found svc =>
      by_cases ht : svc.spec.type = serviceTypeLoadBalancer
      · cases hi : svc.status.ingress with
        | cons i irest =>
          cases hp : svc.spec.ports with
          | nil => simp [syncServices, hsplit, hg, ht, hi, hp] at hs
          | cons p prest =>
            simp [syncServices, hsplit, hg, ht, hi, hp, eligibleB,
              lookupTracker_addService_self]
        | nil =>
          cases hu : env.updateOk with
          | false => simp [syncServices, hsplit, hg, ht, hi, hu] at hs
          | true =>
            cases hp : svc.spec.ports with
            | nil => simp [syncServices, hsplit, hg, ht, hi, hu, hp] at hs
            | cons p prest =>
              simp [syncServices, hsplit, hg, ht, hi, hu, hp, eligibleB,
                lookupTracker_addService_self]
      · cases hl : lookupTracker tracker key with
        | none =>
          simp [syncServices, hsplit, hg, ht, releaseService, getServiceIngress, hl,
            emptyIngress, eligibleB]
        | some e =>
          obtain ⟨he1, he2⟩ := hwf e hl
          cases hu : env.updateOk with
          | false =>
            simp [syncServices, hsplit, hg, ht, releaseService, getServiceIngress, hl,
              he1, he2, hu] at hs
          | true =>
            simp [syncServices, hsplit, hg, ht, releaseService, getServiceIngress, hl,
              he1, he2, hu, eligibleB, lookupTracker_deleteService_self]

/-- Closed instance of `syncServices_tracker_membership`. -/
theorem syncServices_tracker_membership_witness :
    (lookupTracker (syncServices ⟨"", "", ""⟩ [] "default/web"
        ⟨.found ⟨"web", "default", ⟨"LoadBalancer", "10.0.0.5", [80]⟩, ⟨[]⟩⟩, true⟩).tracker
        "default/web").isSome
      = eligibleB ⟨.found ⟨"web", "default", ⟨"LoadBalancer", "10.0.0.5", [80]⟩, ⟨[]⟩⟩, true⟩ :=
  syncServices_tracker_membership ⟨"", "", ""⟩ [] "default/web"
    ⟨.found ⟨"web", "default", ⟨"LoadBalancer", "10.0.0.5", [80]⟩, ⟨[]⟩⟩, true⟩
    (fun e h => by simp [lookupTracker] at h) (by decide)

/-- C1 is false as stated: adopting a status ingress that carries only an
IP (empty hostname) creates a tracker entry that the release branch treats
as absent, so after the service is deleted a later successful invocation
still leaves the entry in the tracker. -/
theorem syncServices_tracker_membership_counterexample :
    (syncServices ⟨"", "", ""⟩ [] "default/web"
        ⟨.found ⟨"web", "default", ⟨"LoadBalancer", "10.0.0.5", [80]⟩,
          ⟨[⟨"", "10.1.2.3"⟩]⟩⟩, true⟩).outcome = .success
    ∧ (syncServices ⟨"", "", ""⟩
        (syncServices ⟨"", "", ""⟩ [] "default/web"
          ⟨.found ⟨"web", "default", ⟨"LoadBalancer", "10.0.0.5", [80]⟩,
            ⟨[⟨"", "10.1.2.3"⟩]⟩⟩, true⟩).tracker
        "default/web" ⟨.notFound, true⟩).outcome = .success
    ∧ eligibleB ⟨.notFound, true⟩ = false
    ∧ (lookupTracker (syncServices ⟨"", "", ""⟩
        (syncServices ⟨"", "", ""⟩ [] "default/web"
          ⟨.found ⟨"web", "default", ⟨"LoadBalancer", "10.0.0.5", [80]⟩,
            ⟨[⟨"", "10.1.2.3"⟩]⟩⟩, true⟩).tracker
        "default/web" ⟨.notFound, true⟩).tracker "default/web").isSome = true := by
  decide

/-- C4 (amended): for an ineligible key, if no tracker entry exists the
invocation is a no-op returning success; if the stored entry has a
nonempty hostname and service address and the service still exists (type
merely changed), the status is cleared, a write failure is propagated with
the tracker unchanged, and on write success the entry is removed. -/
theorem syncServices_release_path (cfg : Config) (tracker : Tracker)
    (key : String) (env : SyncEnv)
    (hk : (splitMetaNamespaceKey key).isSome)
    (hel : eligibleB env = false)
    (hoe : env.get ≠ .otherError) :
    (lookupTracker tracker key = none →
      syncServices cfg tracker key env = ⟨tracker, [], .success⟩)
    ∧ (∀ e svc, lookupTracker tracker key = some e → e.hostname ≠ "" → e.service ≠ "" →
        env.get = .found svc →
        (syncServices cfg tracker key env).writes = [[]]
        ∧ (env.updateOk = true →
            (syncServices cfg tracker key env).outcome = .success
            ∧ lookupTracker (syncServices cfg tracker key env).tracker key = none)
        ∧ (env.updateOk = false →
            (syncServices cfg tracker key env).outcome = .failure
            ∧ (syncServices cfg tracker key env).tracker = tracker)) := by
  obtain ⟨⟨ns0, name0⟩, hsplit⟩ := Option.isSome_iff_exists.mp hk
  cases hg : env.get with
  | otherError => exact absurd hg hoe
  | notFound =>
    refine ⟨?_, ?_⟩
    · intro hl
      simp [syncServices, hsplit, hg, releaseService, getServiceIngress, hl, emptyIngress]
    · intro e svc hl he1 he2 hgf
      exact absurd hgf (by simp)
  | found svc =>
    have ht : ¬ svc.spec.type = serviceTypeLoadBalancer := by
      simp [eligibleB, hg] at hel
      exact hel
    refine ⟨?_, ?_⟩
    · intro hl
      simp [syncServices, hsplit, hg, ht, releaseService, getServiceIngress, hl,
        emptyIngress]
    · intro e svc' hl he1 he2 hgf
      injection hgf with hsvc
      subst hsvc
      refine ⟨?_, ?_, ?_⟩
      · cases hu : env.updateOk with
        | true =>
          simp [syncServices, hsplit, hg, ht, releaseService, getServiceIngress, hl,
            he1, he2, hu]
        | false =>
          simp [syncServices, hsplit, hg, ht, releaseService, getServiceIngress, hl,
            he1, he2, hu]
      · intro hu
        simp [syncServices, hsplit, hg, ht, releaseService, getServiceIngress, hl,
          he1, he2, hu, lookupTracker_deleteService_self]
      · intro hu
        simp [syncServices, hsplit, hg, ht, releaseService, getServiceIngress, hl,
          he1, he2, hu]

/-- Closed instance of `syncServices_release_path`. -/
theorem syncServices_release_path_witness :
    (lookupTracker [("default/web", ⟨"web-default", "10.0.0.5:80"⟩)] "default/web" = none →
      syncServices ⟨"", "", ""⟩ [("default/web", ⟨"web-default", "10.0.0.5:80"⟩)]
          "default/web"
          ⟨.found ⟨"web", "default", ⟨"ClusterIP", "10.0.0.5", [80]⟩, ⟨[]⟩⟩, true⟩ =
        ⟨[("default/web", ⟨"web-default", "10.0.0.5:80"⟩)], [], .success⟩)
    ∧ (∀ e svc,
        lookupTracker [("default/web", ⟨"web-default", "10.0.0.5:80"⟩)] "default/web" = some e →
        e.hostname ≠ "" → e.service ≠ "" →
        (SyncEnv.mk (.found ⟨"web", "default", ⟨"ClusterIP", "10.0.0.5", [80]⟩, ⟨[]⟩⟩) true).get
          = .found svc →
        (syncServices ⟨"", "", ""⟩ [("default/web", ⟨"web-default", "10.0.0.5:80"⟩)]
            "default/web"
            ⟨.found ⟨"web", "default", ⟨"ClusterIP", "10.0.0.5", [80]⟩, ⟨[]⟩⟩, true⟩).writes
          = [[]]
        ∧ (true = true →
            (syncServices ⟨"", "", ""⟩ [("default/web", ⟨"web-default", "10.0.0.5:80"⟩)]
                "default/web"
                ⟨.found ⟨"web", "default", ⟨"ClusterIP", "10.0.0.5", [80]⟩, ⟨[]⟩⟩, true⟩).outcome
              = .success
            ∧ lookupTracker (syncServices ⟨"", "", ""⟩
                [("default/web", ⟨"web-default", "10.0.0.5:80"⟩)] "default/web"
                ⟨.found ⟨"web", "default", ⟨"ClusterIP", "10.0.0.5", [80]⟩, ⟨[]⟩⟩, true⟩).tracker
                "default/web" = none)
        ∧ (true = false →
            (syncServices ⟨"", "", ""⟩ [("default/web", ⟨"web-default", "10.0.0.5:80"⟩)]
                "default/web"
                ⟨.found ⟨"web", "default", ⟨"ClusterIP", "10.0.0.5", [80]⟩, ⟨[]⟩⟩, true⟩).outcome
              = .failure
            ∧ (syncServices ⟨"", "", ""⟩ [("default/web", ⟨"web-default", "10.0.0.5:80"⟩)]
                "default/web"
                ⟨.found ⟨"web", "default", ⟨"ClusterIP", "10.0.0.5", [80]⟩, ⟨[]⟩⟩, true⟩).tracker
              = [("default/web", ⟨"web-default", "10.0.0.5:80"⟩)])) :=
  syncServices_release_path ⟨"", "", ""⟩ [("default/web", ⟨"web-default", "10.0.0.5:80"⟩)]
    "default/web"
    ⟨.found ⟨"web", "default", ⟨"ClusterIP", "10.0.0.5", [80]⟩, ⟨[]⟩⟩, true⟩
    (by decide) (by decide) (by decide)

/-- C4 is false as stated: a tracker entry adopted from an IP-only status
ingress (empty hostname) counts as Tracked, yet when the service's type
changes away from LoadBalancer the next successful invocation neither
clears the status (no write issued) nor removes the entry. -/
theorem syncServices_release_path_counterexample :
    (syncServices ⟨"", "", ""⟩ [] "default/web"
        ⟨.found ⟨"web", "default", ⟨"LoadBalancer", "10.0.0.5", [80]⟩,
          ⟨[⟨"", "10.1.2.3"⟩]⟩⟩, true⟩).outcome = .success
    ∧ (lookupTracker (syncServices ⟨"", "", ""⟩ [] "default/web"
        ⟨.found ⟨"web", "default", ⟨"LoadBalancer", "10.0.0.5", [80]⟩,
          ⟨[⟨"", "10.1.2.3"⟩]⟩⟩, true⟩).tracker "default/web").isSome = true
    ∧ (syncServices ⟨"", "", ""⟩
        (syncServices ⟨"", "", ""⟩ [] "default/web"
          ⟨.found ⟨"web", "default", ⟨"LoadBalancer", "10.0.0.5", [80]⟩,
            ⟨[⟨"", "10.1.2.3"⟩]⟩⟩, true⟩).tracker
        "default/web"
        ⟨.found ⟨"web", "default", ⟨"ClusterIP", "10.0.0.5", [80]⟩, ⟨[]⟩⟩, true⟩).writes = []
    ∧ (syncServices ⟨"", "", ""⟩
        (syncServices ⟨"", "", ""⟩ [] "default/web"
          ⟨.found ⟨"web", "default", ⟨"LoadBalancer", "10.0.0.5", [80]⟩,
            ⟨[⟨"", "10.1.2.3"⟩]⟩⟩, true⟩).tracker
        "default/web"
        ⟨.found ⟨"web", "default", ⟨"ClusterIP", "10.0.0.5", [80]⟩, ⟨[]⟩⟩, true⟩).outcome
      = .success
    ∧ (lookupTracker (syncServices ⟨"", "", ""⟩
        (syncServices ⟨"", "", ""⟩ [] "default/web"
          ⟨.found ⟨"web", "default", ⟨"LoadBalancer", "10.0.0.5", [80]⟩,
            ⟨[⟨"", "10.1.2.3"⟩]⟩⟩, true⟩).tracker
        "default/web"
        ⟨.found ⟨"web", "default", ⟨"ClusterIP", "10.0.0.5", [80]⟩, ⟨[]⟩⟩, true⟩).tracker
        "default/web").isSome = true := by
  decide

/-- A file on disk: its identity (device/inode, as one number) and its
content. -/
structure KFile where
  inode : Nat
  content : String
  deriving DecidableEq, Repr

/-- Filesystem state for the configuration writer: files by path, the set
of existing directories, and the next fresh inode number (all inodes in
`files` are below it). -/
structure FS where
  files : List (String × KFile)
  dirs : List String
  nextInode : Nat
  deriving DecidableEq, Repr

/-- Lookup of a path (`os.Stat`): `none` models a stat error. -/
def lookupFile : List (String × KFile) → String → Option KFile
  | [], _ => none
  | (q, f) :: rest, path => if q = path then some f else lookupFile rest path

/-- Remove a path's entry (`os.Remove`, a no-op here when absent). -/
def removeEntry : List (String × KFile) → String → List (String × KFile)
  | [], _ => []
  | (q, f) :: rest, path =>
    if q = path then removeEntry rest path else (q, f) :: removeEntry rest path

/-- Embedding of the writer's `sameFile` helper: `os.Stat` both paths
(any stat error yields `false`) and compare with `os.SameFile`, which
holds exactly when both paths refer to the same file identity (device and
inode) — it does not compare contents. -/
def sameFile (fs : FS) (path1 path2 : String) : Bool :=
  match lookupFile fs.files path1, lookupFile fs.files path2 with
  | some f1, some f2 => f1.inode = f2.inode
  | _, _ => false

/-- Join path components with slashes (helper for `dirOf`). -/
def joinSlash : List (List Char) → List Char
  | [] => []
  | [g] => g
  | g :: gs => g ++ '/' :: joinSlash gs

/-- Parent directory of a path (`filepath.Dir` restricted to the clean
relative and absolute paths the writer uses): everything before the last
slash, or "." when there is none. -/
def dirOf (path : String) : String :=
  match splitOnSlash path.data with
  | [] => "."
  | [_] => "."
  | parts => String.mk (joinSlash parts.dropLast)

/-- Embedding of `os.MkdirAll` on the directory set. -/
def mkdirAll (fs : FS) (d : String) : FS :=
  if fs.dirs.contains d then fs else { fs with dirs := d :: fs.dirs }

/-- Embedding of `os.Rename src dst`: the file keeps its identity and
content and replaces whatever was at the destination. -/
def renameFile (fs : FS) (src dst : String) : FS :=
  match lookupFile fs.files src with
  | none => fs
  | some f =>
    { fs with files := (dst, f) :: removeEntry (removeEntry fs.files src) dst }

/-- Embedding of `Configuration.Write` (`pkg/cloudflared`): an empty path
is an error; the target's parent directory is created; a fresh temp file
(`ioutil.TempFile`) receives the YAML-encoded content; if `sameFile` holds
for the temp file and the target the write stops (the deferred remove
deletes the temp file), otherwise the temp file is renamed over the
target.  The returned flag records whether the rename was performed.  The
already-rendered content is a parameter; encoding itself is not modelled. -/
def configurationWrite (path : String) (content : String) (fs : FS) :
    Except String (FS × Bool) :=
  if path = "" then .error "missing configuration file name"
  else
    let fs1 := mkdirAll fs (dirOf path)
    let tempname := "/tmp/klb" ++ toString fs1.nextInode
    let fs2 : FS :=
      { fs1 with
        files := (tempname, ⟨fs1.nextInode, content⟩) :: fs1.files,
        nextInode := fs1.nextInode + 1 }
    if sameFile fs2 tempname path then
      .ok ({ fs2 with files := removeEntry fs2.files tempname }, false)
    else
      let fs3 := renameFile fs2 tempname path
      .ok ({ fs3 with files := removeEntry fs3.files tempname }, true)

/-- C9: the change gate never fires.  With the target already holding
exactly the rendered content, `Configuration.Write` still renames the temp
file over it: `sameFile` compares file identity, not content, and the
fresh temp file never has the target's identity.  The target's inode
changes from 1 to the temp file's 2, proving a rename took place despite
equal content. -/
theorem configurationWrite_ignores_content_equality :
    sameFile ⟨[("config.yaml", ⟨1, "tunnel: x\n"⟩)], ["."], 2⟩ "config.yaml" "config.yaml"
      = true
    ∧ configurationWrite "config.yaml" "tunnel: x\n"
        ⟨[("config.yaml", ⟨1, "tunnel: x\n"⟩)], ["."], 2⟩
      = .ok (⟨[("config.yaml", ⟨2, "tunnel: x\n"⟩)], ["."], 3⟩, true) :=
  ⟨by decide, rfl⟩

end Kloudflarelb
